import Mathlib

/-!
# Verification of the TTS Studio license server entitlement logic

Shallow embedding of `src/app.py` (Flask license server). Each API handler is
modelled as a pure function on the per-device license record; the SQLite reads
and writes of one request are fused into explicit state passing. Wall-clock
audit timestamps (`last_active`, `created_at`, `updated_at`) are not part of
the entitlement state and are omitted; everything else in the `licenses`,
`coupons` and `notifications` rows is carried.

`datetime.now()` is modelled as a `DateTime`: a calendar day ordinal plus the
elapsed time within that day (`tod = 0` is midnight). A stored `expires`
string `"%Y-%m-%d"` parses to a day ordinal, i.e. to midnight of that day,
which is exactly how `check_expiry` compares it.
-/

namespace TTSLicense

/-- Model of `datetime.now()`: calendar day ordinal plus elapsed time within the day
(`tod = 0` is midnight; the unit of `tod` is irrelevant, only `tod = 0` vs
`0 < tod` matters for the comparisons the source performs). -/
structure DateTime where
  day : Nat
  tod : Nat
deriving DecidableEq, Repr

/-- Constant `FREE_DAILY_LIMIT = 10` (src/app.py line 31). -/
def FREE_DAILY_LIMIT : Nat := 10

/-- Constant `ADMIN_KEY` (src/app.py line 18). -/
def ADMIN_KEY : String := "tts_admin_2024"

/-- The `tier` column only ever holds `'free'` or `'pro'`. -/
inductive Tier where
  | free
  | pro
deriving DecidableEq, Repr

/-- One row of the `licenses` table (timestamps omitted, see module header).
`credits` is a `Nat`: every write keeps the column non-negative (insert 0,
additions, `MAX(0, ...)`, decrement guarded by `credits > 0`). `expires` and
`daily_reset` are stored `"%Y-%m-%d"` strings, modelled as day ordinals. -/
structure License where
  tier : Tier
  credits : Nat
  unlimited : Bool
  expires : Option Nat
  daily_used : Nat
  daily_reset : Option Nat
  coupon_used : Option String
  suspended : Bool
  suspend_reason : Option String
  total_generations : Nat
deriving DecidableEq, Repr

/-- One row of the `coupons` table. -/
structure Coupon where
  code : String
  ctype : String
  credits : Nat
  days : Nat
  unlimited : Bool
  used : Bool
  used_by : Option String
deriving DecidableEq, Repr

/-- One entry of the `COUPON_TYPES` catalog (src/app.py lines 22-29). -/
structure CouponInfo where
  credits : Nat
  days : Nat
  unlimited : Bool
  name : String
deriving DecidableEq, Repr

/-- The `COUPON_TYPES` dict (src/app.py lines 22-29), as a lookup. -/
def COUPON_TYPES (t : String) : Option CouponInfo :=
  if t = "PRO30" then some ⟨300, 30, false, "Pro 30 Days"⟩
  else if t = "PRO90" then some ⟨1500, 90, false, "Pro 90 Days"⟩
  else if t = "UNL7" then some ⟨0, 7, true, "Unlimited 7 Days"⟩
  else if t = "UNL30" then some ⟨0, 30, true, "Unlimited 30 Days"⟩
  else if t = "UNL90" then some ⟨0, 90, true, "Unlimited 90 Days"⟩
  else if t = "LIFE" then some ⟨0, 36500, true, "Lifetime"⟩
  else none

/-- One row of the `notifications` table. -/
structure Notification where
  ntype : String
  title : String
  message : String
  credits_change : Int
  seen : Bool
deriving DecidableEq, Repr

/-- One row of the `usage_logs` table (`ip_address` is transport data,
omitted). -/
structure UsageEntry where
  text_preview : String
  text_length : Nat
  voice : String
deriving DecidableEq, Repr

/-- The row `get_or_create_license` inserts for an unseen device id
(src/app.py lines 128-136): free tier, zeroed counters, `daily_reset` set to
today. -/
def freshLicense (today : Nat) : License :=
  { tier := .free, credits := 0, unlimited := false, expires := none,
    daily_used := 0, daily_reset := some today, coupon_used := none,
    suspended := false, suspend_reason := none, total_generations := 0 }

/-- Model of `get_or_create_license` (src/app.py lines 120-144): returns the stored
row, creating the free-tier row above when the device id is unseen. -/
def get_or_create_license (stored : Option License) (now : DateTime) : License :=
  match stored with
  | some r => r
  | none => freshLicense now.day

/-- Model of `check_daily_reset` (src/app.py lines 147-161): if `daily_reset` is not
today, zero `daily_used` and stamp `daily_reset = today`. -/
def check_daily_reset (now : DateTime) (r : License) : License :=
  if r.daily_reset ≠ some now.day then
    { r with daily_used := 0, daily_reset := some now.day }
  else r

/-- The comparison `datetime.now() > datetime.strptime(expires, "%Y-%m-%d")`
of src/app.py line 168: the parsed expiry is midnight of day `d`, so `now`
is strictly later iff `now` is on a later day, or on day `d` with a nonzero
time of day. -/
def nowPastMidnightOf (now : DateTime) (d : Nat) : Bool :=
  decide (d < now.day) || (decide (d = now.day) && decide (0 < now.tod))

/-- Model of `check_expiry` (src/app.py lines 164-182): when `expires` is set and
`datetime.now()` is strictly past its midnight, reset the row to free tier
(`tier='free', credits=0, unlimited=0, expires=NULL`). -/
def check_expiry (now : DateTime) (r : License) : License :=
  match r.expires with
  | none => r
  | some d =>
      if nowPastMidnightOf now d then
        { r with tier := .free, credits := 0, unlimited := false, expires := none }
      else r

/-- The maintenance pair every read path runs: `check_daily_reset` then
`check_expiry` (src/app.py lines 437-438, 514-515, 545-546). -/
def normalize (now : DateTime) (r : License) : License :=
  check_expiry now (check_daily_reset now r)

/-- The `remaining` field of the status payload: `"unlimited"`, or an
integer (which the source computes as `FREE_DAILY_LIMIT - daily_used`, a
possibly negative Python int, hence `Int`). -/
inductive Remaining where
  | unlimited
  | num (n : Int)
deriving DecidableEq, Repr

/-- The `/api/status` response: the short suspended payload of src/app.py
lines 441-446, or the full payload of lines 464-473. -/
inductive StatusResp where
  | suspendedResp (suspend_reason : Option String) (remaining : Int)
  | ok (tier : Tier) (tier_display : String) (remaining : Remaining)
      (unlimited : Bool) (expires : Option Nat) (daily_used : Nat)
      (daily_limit : Nat) (suspended : Bool)
deriving DecidableEq, Repr

/-- Model of `api_status` (src/app.py lines 427-473) on the record returned by
`get_or_create_license`: normalize, then either the suspended payload or the
computed status; returns the stored row alongside the response. -/
def api_status (now : DateTime) (r0 : License) : License × StatusResp :=
  let r := normalize now r0
  if r.suspended then
    (r, .suspendedResp r.suspend_reason 0)
  else
    let remaining : Remaining :=
      if r.unlimited then .unlimited
      else if r.tier = .pro then .num r.credits
      else .num ((FREE_DAILY_LIMIT : Int) - (r.daily_used : Int))
    let tierDisplay : String :=
      if r.tier = .free then "Free"
      else if r.unlimited then
        (if r.expires.isSome then "Pro-UNLIMITED" else "LIFETIME")
      else "Pro-Limited"
    (r, .ok r.tier tierDisplay remaining r.unlimited r.expires r.daily_used
          FREE_DAILY_LIMIT false)

/-- Model of `api_validate` (src/app.py lines 504-530): normalize, then the
`can_generate` chain — suspended ⇒ false; unlimited ⇒ true; pro with
credits ⇒ true; free under the daily limit ⇒ true; else false. -/
def api_validate (now : DateTime) (r0 : License) : License × Bool :=
  let r := normalize now r0
  if r.suspended then (r, false)
  else
    let can : Bool :=
      if r.unlimited then true
      else if r.tier = .pro ∧ 0 < r.credits then true
      else if r.tier = .free ∧ r.daily_used < FREE_DAILY_LIMIT then true
      else false
    (r, can)

/-- Model of `text[:100] + "..." if len(text) > 100 else text` (src/app.py line 552). -/
def textPreview (t : String) : String :=
  if 100 < t.length then t.take 100 ++ "..." else t

/-- The deduction branch of `api_use` (src/app.py lines 564-583), first match
wins: unlimited ⇒ nothing; pro with credits ⇒ decrement, collapsing to the
free tier when the result is `<= 0`; otherwise ⇒ `daily_used += 1`. -/
def consume_deduct (r : License) : License :=
  if r.unlimited then r
  else if r.tier = .pro ∧ 0 < r.credits then
    let newCredits := r.credits - 1
    if newCredits ≤ 0 then
      { r with tier := .free, credits := 0, unlimited := false, expires := none }
    else
      { r with credits := newCredits }
  else
    { r with daily_used := r.daily_used + 1 }

/-- Model of `api_use` (src/app.py lines 533-588): normalize, insert one usage-log
row, increment `total_generations`, then run the deduction branch. There is
no suspension check on this path. -/
def api_use (now : DateTime) (text voice : String) (r0 : License)
    (log : List UsageEntry) : License × List UsageEntry :=
  let r := normalize now r0
  let entry : UsageEntry := ⟨textPreview text, text.length, voice⟩
  let r1 : License := { r with total_generations := r.total_generations + 1 }
  (consume_deduct r1, log ++ [entry])

/-- Outcome of `api_activate`. -/
inductive ActivateResult where
  | errSuspended
  | errInvalidCoupon
  | errAlreadyUsed
  | success (message : String) (tier : Tier) (credits : Nat) (unlimited : Bool)
      (expires : Nat)
deriving DecidableEq, Repr

/-- Model of `api_activate` (src/app.py lines 591-668) on the record returned by
`get_or_create_license` and the looked-up coupon row. No call to
`check_daily_reset` or `check_expiry` appears on this path. Because
`get_or_create_license` runs first, the later `SELECT ... FROM licenses`
always finds a row, so the `# New user` INSERT branch (lines 648-654) is
unreachable and only the UPDATE branch is modelled. Returns the stored row,
the stored coupon row, and the response. -/
def api_activate (now : DateTime) (deviceId : String) (couponRow : Option Coupon)
    (r0 : License) : License × Option Coupon × ActivateResult :=
  if r0.suspended then (r0, couponRow, .errSuspended)
  else
    match couponRow with
    | none => (r0, none, .errInvalidCoupon)
    | some c =>
        if c.used then (r0, some c, .errAlreadyUsed)
        else
          let expiry := now.day + c.days
          let newCredits := r0.credits + c.credits
          let typeName := ((COUPON_TYPES c.ctype).map CouponInfo.name).getD "Pro"
          ({ r0 with
              tier := .pro, credits := newCredits,
              unlimited := c.unlimited, expires := some expiry,
              coupon_used := some c.code },
            some { c with used := true, used_by := some deviceId },
            .success ("License activated: " ++ typeName) .pro newCredits
              c.unlimited expiry)

/-- Outcome of the admin credit-adjustment routes. -/
inductive AdminResult where
  | unauthorized
  | invalidAmount
  | ok
deriving DecidableEq, Repr

/-- Model of `admin_penalty` (src/app.py lines 387-422): key check, `credits <= 0`
check, then `credits = MAX(0, credits - amount)` and a `penalty`
notification carrying `credits_change = -amount`. Neither
`get_or_create_license` nor normalization runs here. -/
def admin_penalty (adminKey : String) (amount : Int) (reason : String)
    (r : License) : License × Option Notification × AdminResult :=
  if adminKey ≠ ADMIN_KEY then (r, none, .unauthorized)
  else if amount ≤ 0 then (r, none, .invalidAmount)
  else
    ({ r with credits := (max 0 ((r.credits : Int) - amount)).toNat },
      some ⟨"penalty", "⚠️ Credits Deducted", reason, -amount, false⟩,
      .ok)

/-- Model of `api_notifications` (src/app.py lines 476-501) on one device's
notification rows: return the unseen ones and mark exactly those seen. No
suspension check appears on this path. -/
def api_notifications (notifs : List Notification) :
    List Notification × List Notification :=
  (notifs.filter (fun n => !n.seen),
    notifs.map (fun n => if n.seen then n else { n with seen := true }))

/-- Iterating the consume endpoint: `consumeN now n r` is the stored record
after `n` successive `/api/use` requests (empty text and voice) for the same
device at the same `now`. -/
def consumeN (now : DateTime) : Nat → License → License
  | 0, r => r
  | n + 1, r => (api_use now "" "" (consumeN now n r) []).1

/-! ## Basic lemmas about the maintenance pair -/

lemma check_daily_reset_tier (now : DateTime) (r : License) :
    (check_daily_reset now r).tier = r.tier := by
  unfold check_daily_reset; split <;> rfl

lemma check_daily_reset_credits (now : DateTime) (r : License) :
    (check_daily_reset now r).credits = r.credits := by
  unfold check_daily_reset; split <;> rfl

lemma check_daily_reset_unlimited (now : DateTime) (r : License) :
    (check_daily_reset now r).unlimited = r.unlimited := by
  unfold check_daily_reset; split <;> rfl

lemma check_daily_reset_expires (now : DateTime) (r : License) :
    (check_daily_reset now r).expires = r.expires := by
  unfold check_daily_reset; split <;> rfl

lemma check_daily_reset_suspended (now : DateTime) (r : License) :
    (check_daily_reset now r).suspended = r.suspended := by
  unfold check_daily_reset; split <;> rfl

lemma check_daily_reset_reason (now : DateTime) (r : License) :
    (check_daily_reset now r).suspend_reason = r.suspend_reason := by
  unfold check_daily_reset; split <;> rfl

lemma check_daily_reset_tg (now : DateTime) (r : License) :
    (check_daily_reset now r).total_generations = r.total_generations := by
  unfold check_daily_reset; split <;> rfl

lemma check_daily_reset_stamp (now : DateTime) (r : License) :
    (check_daily_reset now r).daily_reset = some now.day := by
  unfold check_daily_reset
  split
  · rfl
  · next h => simpa using h

lemma check_daily_reset_self (now : DateTime) (r : License)
    (h : r.daily_reset = some now.day) : check_daily_reset now r = r := by
  unfold check_daily_reset
  rw [if_neg]
  simp [h]

lemma check_expiry_none (now : DateTime) (r : License) (h : r.expires = none) :
    check_expiry now r = r := by
  unfold check_expiry; rw [h]

lemma check_expiry_fire (now : DateTime) (r : License) (d : Nat)
    (h : r.expires = some d) (hq : nowPastMidnightOf now d = true) :
    check_expiry now r =
      { r with tier := .free, credits := 0, unlimited := false, expires := none } := by
  unfold check_expiry; rw [h]; simp [hq]

lemma check_expiry_skip (now : DateTime) (r : License) (d : Nat)
    (h : r.expires = some d) (hq : nowPastMidnightOf now d = false) :
    check_expiry now r = r := by
  unfold check_expiry; rw [h]; simp [hq]

lemma check_expiry_eq_or (now : DateTime) (r : License) :
    check_expiry now r = r ∨
    check_expiry now r =
      { r with tier := .free, credits := 0, unlimited := false, expires := none } := by
  rcases hE : r.expires with _ | d
  · exact Or.inl (check_expiry_none now r hE)
  · cases hq : nowPastMidnightOf now d
    · exact Or.inl (check_expiry_skip now r d hE hq)
    · exact Or.inr (check_expiry_fire now r d hE hq)

lemma check_expiry_daily_used (now : DateTime) (r : License) :
    (check_expiry now r).daily_used = r.daily_used := by
  rcases check_expiry_eq_or now r with h | h <;> rw [h]

lemma check_expiry_daily_reset (now : DateTime) (r : License) :
    (check_expiry now r).daily_reset = r.daily_reset := by
  rcases check_expiry_eq_or now r with h | h <;> rw [h]

lemma check_expiry_suspended (now : DateTime) (r : License) :
    (check_expiry now r).suspended = r.suspended := by
  rcases check_expiry_eq_or now r with h | h <;> rw [h]

lemma check_expiry_reason (now : DateTime) (r : License) :
    (check_expiry now r).suspend_reason = r.suspend_reason := by
  rcases check_expiry_eq_or now r with h | h <;> rw [h]

lemma check_expiry_tg (now : DateTime) (r : License) :
    (check_expiry now r).total_generations = r.total_generations := by
  rcases check_expiry_eq_or now r with h | h <;> rw [h]

lemma check_expiry_idem (now : DateTime) (r : License) :
    check_expiry now (check_expiry now r) = check_expiry now r := by
  rcases hE : r.expires with _ | d
  · rw [check_expiry_none now r hE, check_expiry_none now r hE]
  · cases hq : nowPastMidnightOf now d
    · rw [check_expiry_skip now r d hE hq, check_expiry_skip now r d hE hq]
    · rw [check_expiry_fire now r d hE hq]
      exact check_expiry_none now _ rfl

lemma normalize_cases (now : DateTime) (r : License) :
    normalize now r = check_daily_reset now r ∨
    normalize now r =
      { check_daily_reset now r with
          tier := .free, credits := 0, unlimited := false, expires := none } := by
  unfold normalize
  exact check_expiry_eq_or now (check_daily_reset now r)

lemma normalize_suspended (now : DateTime) (r : License) :
    (normalize now r).suspended = r.suspended := by
  unfold normalize
  rw [check_expiry_suspended, check_daily_reset_suspended]

lemma normalize_reason (now : DateTime) (r : License) :
    (normalize now r).suspend_reason = r.suspend_reason := by
  unfold normalize
  rw [check_expiry_reason, check_daily_reset_reason]

lemma normalize_tg (now : DateTime) (r : License) :
    (normalize now r).total_generations = r.total_generations := by
  unfold normalize
  rw [check_expiry_tg, check_daily_reset_tg]

lemma normalize_stamp (now : DateTime) (r : License) :
    (normalize now r).daily_reset = some now.day := by
  unfold normalize
  rw [check_expiry_daily_reset, check_daily_reset_stamp]

lemma normalize_idem (now : DateTime) (r : License) :
    normalize now (normalize now r) = normalize now r := by
  show check_expiry now (check_daily_reset now (check_expiry now (check_daily_reset now r)))
      = check_expiry now (check_daily_reset now r)
  rw [check_daily_reset_self now _ (by rw [check_expiry_daily_reset, check_daily_reset_stamp])]
  exact check_expiry_idem now _

lemma consume_deduct_tg (r : License) :
    (consume_deduct r).total_generations = r.total_generations := by
  unfold consume_deduct
  split
  · rfl
  · split
    · dsimp only
      split <;> rfl
    · rfl

lemma consume_deduct_unl (r : License) (h : r.unlimited = true) :
    consume_deduct r = r := by
  unfold consume_deduct
  rw [if_pos h]

lemma consume_deduct_free_branch (r : License) (hunl : r.unlimited = false)
    (h : ¬(r.tier = Tier.pro ∧ 0 < r.credits)) :
    consume_deduct r = { r with daily_used := r.daily_used + 1 } := by
  unfold consume_deduct
  rw [if_neg (by simp [hunl]), if_neg h]

lemma consume_deduct_collapse (r : License) (hunl : r.unlimited = false)
    (htier : r.tier = Tier.pro) (hc : r.credits = 1) :
    consume_deduct r =
      { r with tier := Tier.free, credits := 0, unlimited := false, expires := none } := by
  unfold consume_deduct
  rw [if_neg (by simp [hunl]), if_pos ⟨htier, by omega⟩]
  dsimp only
  rw [if_pos (by omega)]

lemma consume_deduct_decrement (r : License) (hunl : r.unlimited = false)
    (htier : r.tier = Tier.pro) (hc : 1 < r.credits) :
    consume_deduct r = { r with credits := r.credits - 1 } := by
  unfold consume_deduct
  rw [if_neg (by simp [hunl]), if_pos ⟨htier, by omega⟩]
  dsimp only
  rw [if_neg (by omega)]

lemma api_use_tg (now : DateTime) (t v : String) (r : License)
    (log : List UsageEntry) :
    (api_use now t v r log).1.total_generations = r.total_generations + 1 := by
  unfold api_use
  dsimp only
  rw [consume_deduct_tg]
  dsimp only
  rw [normalize_tg]

lemma api_use_log (now : DateTime) (t v : String) (r : License)
    (log : List UsageEntry) :
    (api_use now t v r log).2 = log ++ [⟨textPreview t, t.length, v⟩] := rfl

/-! ## Claim theorems -/

/-- C6: the normalization step (daily reset followed by expiry check) is
idempotent — for every device record and every fixed `now`, applying it twice
in succession yields exactly the same record as applying it once. -/
theorem normalize_idempotent (now : DateTime) (r : License) :
    normalize now (normalize now r) = normalize now r :=
  normalize_idem now r

/-- C1: for every existing device record that is not suspended, activating a
known, unused coupon succeeds and sets credits to the existing credits plus
the coupon's grant (accumulating, not overwriting), forces tier to `pro`,
overwrites `unlimited` and `expires` with the coupon's values
(`expires = now + coupon.days`), and leaves `total_generations` unchanged. -/
theorem activate_additive (now : DateTime) (devId : String) (c : Coupon)
    (r : License) (hsus : r.suspended = false) (hused : c.used = false) :
    (api_activate now devId (some c) r).1.credits = r.credits + c.credits ∧
    (api_activate now devId (some c) r).1.tier = Tier.pro ∧
    (api_activate now devId (some c) r).1.unlimited = c.unlimited ∧
    (api_activate now devId (some c) r).1.expires = some (now.day + c.days) ∧
    (api_activate now devId (some c) r).1.total_generations = r.total_generations ∧
    (api_activate now devId (some c) r).2.2 =
      ActivateResult.success
        ("License activated: " ++ ((COUPON_TYPES c.ctype).map CouponInfo.name).getD "Pro")
        Tier.pro (r.credits + c.credits) c.unlimited (now.day + c.days) := by
  unfold api_activate
  simp [hsus, hused]

/-- Witness for C1: a pro device holding 50 credits and 7 generations
activates a fresh 300-credit 30-day coupon on day 100 and ends with 350
credits, pro tier, `expires = 130`, generations untouched. -/
theorem activate_additive_witness :
    (api_activate ⟨100, 5⟩ "dev-1"
        (some ⟨"PRO30-AAAAAAAA-BBBB", "PRO30", 300, 30, false, false, none⟩)
        ⟨Tier.pro, 50, false, some 130, 2, some 100, none, false, none, 7⟩).1.credits
      = 50 + 300 ∧
    (api_activate ⟨100, 5⟩ "dev-1"
        (some ⟨"PRO30-AAAAAAAA-BBBB", "PRO30", 300, 30, false, false, none⟩)
        ⟨Tier.pro, 50, false, some 130, 2, some 100, none, false, none, 7⟩).1.tier
      = Tier.pro ∧
    (api_activate ⟨100, 5⟩ "dev-1"
        (some ⟨"PRO30-AAAAAAAA-BBBB", "PRO30", 300, 30, false, false, none⟩)
        ⟨Tier.pro, 50, false, some 130, 2, some 100, none, false, none, 7⟩).1.unlimited
      = false ∧
    (api_activate ⟨100, 5⟩ "dev-1"
        (some ⟨"PRO30-AAAAAAAA-BBBB", "PRO30", 300, 30, false, false, none⟩)
        ⟨Tier.pro, 50, false, some 130, 2, some 100, none, false, none, 7⟩).1.expires
      = some (100 + 30) ∧
    (api_activate ⟨100, 5⟩ "dev-1"
        (some ⟨"PRO30-AAAAAAAA-BBBB", "PRO30", 300, 30, false, false, none⟩)
        ⟨Tier.pro, 50, false, some 130, 2, some 100, none, false, none, 7⟩).1.total_generations
      = 7 := by
  have h := activate_additive ⟨100, 5⟩ "dev-1"
    ⟨"PRO30-AAAAAAAA-BBBB", "PRO30", 300, 30, false, false, none⟩
    ⟨Tier.pro, 50, false, some 130, 2, some 100, none, false, none, 7⟩ rfl rfl
  exact ⟨h.1, h.2.1, h.2.2.1, h.2.2.2.1, h.2.2.2.2.1⟩

/-- C5: for every device and every positive penalty amount, `admin_penalty`
sets credits to `max(0, credits - amount)` (never negative), leaves tier,
unlimited and expires untouched even when the result is 0, and records a
penalty notification whose `credits_change` is minus the requested amount,
not the clamped actual change. -/
theorem penalty_floor (amount : Int) (reason : String) (r : License)
    (hamt : 0 < amount) :
    ((admin_penalty ADMIN_KEY amount reason r).1.credits : Int)
      = max 0 ((r.credits : Int) - amount) ∧
    (admin_penalty ADMIN_KEY amount reason r).1.tier = r.tier ∧
    (admin_penalty ADMIN_KEY amount reason r).1.unlimited = r.unlimited ∧
    (admin_penalty ADMIN_KEY amount reason r).1.expires = r.expires ∧
    (admin_penalty ADMIN_KEY amount reason r).2.1 =
      some ⟨"penalty", "⚠️ Credits Deducted", reason, -amount, false⟩ ∧
    (admin_penalty ADMIN_KEY amount reason r).2.2 = AdminResult.ok := by
  unfold admin_penalty
  rw [if_neg (by simp), if_neg (by omega)]
  refine ⟨?_, rfl, rfl, rfl, rfl, rfl⟩
  exact Int.toNat_of_nonneg (le_max_left 0 _)

/-- Witness for C5: a penalty of 500 on a pro device holding 300 credits
yields credits 0 (floored) while tier stays pro, and the notification's
`credits_change` is the requested `-500`. -/
theorem penalty_floor_witness :
    (admin_penalty ADMIN_KEY 500 "abuse"
        ⟨Tier.pro, 300, false, none, 0, some 100, none, false, none, 4⟩).1.credits = 0 ∧
    (admin_penalty ADMIN_KEY 500 "abuse"
        ⟨Tier.pro, 300, false, none, 0, some 100, none, false, none, 4⟩).1.tier = Tier.pro ∧
    (admin_penalty ADMIN_KEY 500 "abuse"
        ⟨Tier.pro, 300, false, none, 0, some 100, none, false, none, 4⟩).2.1 =
      some ⟨"penalty", "⚠️ Credits Deducted", "abuse", -500, false⟩ := by
  have h := penalty_floor 500 "abuse"
    ⟨Tier.pro, 300, false, none, 0, some 100, none, false, none, 4⟩ (by omega)
  exact ⟨by decide, h.2.1, h.2.2.2.2.1⟩

/-- C8: every `api_use` call appends exactly one usage-log entry and
increments `total_generations` by exactly 1, unconditionally — independent of
the device's tier, unlimited flag, or remaining balance, and untouched by the
deduction branch that follows. -/
theorem use_logs_unconditionally (now : DateTime) (t v : String) (r : License)
    (log : List UsageEntry) :
    (api_use now t v r log).1.total_generations = r.total_generations + 1 ∧
    (api_use now t v r log).2 = log ++ [⟨textPreview t, t.length, v⟩] :=
  ⟨api_use_tg now t v r log, api_use_log now t v r log⟩

/-- C2: a pro, non-unlimited device holding exactly 1 credit is collapsed to
the free tier by one consume call (tier free, credits 0, unlimited false,
expires null — the zero-credit state never lingers at pro/0), whereas a
consume call that leaves credits above 0 only decrements credits, keeping
tier, unlimited and expires as they were. -/
theorem consume_last_credit_collapses (now : DateTime) (t v : String) (r : License)
    (htier : r.tier = Tier.pro) (hunl : r.unlimited = false) :
    (r.credits = 1 →
      (api_use now t v r []).1.tier = Tier.free ∧
      (api_use now t v r []).1.credits = 0 ∧
      (api_use now t v r []).1.unlimited = false ∧
      (api_use now t v r []).1.expires = none) ∧
    (0 < (api_use now t v r []).1.credits →
      (api_use now t v r []).1.credits = r.credits - 1 ∧
      (api_use now t v r []).1.tier = Tier.pro ∧
      (api_use now t v r []).1.unlimited = false ∧
      (api_use now t v r []).1.expires = r.expires) := by
  have key : (api_use now t v r []).1
      = consume_deduct { normalize now r with
          total_generations := (normalize now r).total_generations + 1 } := rfl
  set r2 : License := { normalize now r with
      total_generations := (normalize now r).total_generations + 1 } with hr2
  have h2tier : r2.tier = (normalize now r).tier := rfl
  have h2cred : r2.credits = (normalize now r).credits := rfl
  have h2unl : r2.unlimited = (normalize now r).unlimited := rfl
  have h2exp : r2.expires = (normalize now r).expires := rfl
  rcases normalize_cases now r with h | h
  · -- the expiry check did not fire: entitlement fields carry over from r
    have htier2 : r2.tier = Tier.pro := by
      rw [h2tier, h, check_daily_reset_tier, htier]
    have hunl2 : r2.unlimited = false := by
      rw [h2unl, h, check_daily_reset_unlimited, hunl]
    have hcred2 : r2.credits = r.credits := by
      rw [h2cred, h, check_daily_reset_credits]
    have hexp2 : r2.expires = r.expires := by
      rw [h2exp, h, check_daily_reset_expires]
    constructor
    · intro hc1
      rw [key, consume_deduct_collapse r2 hunl2 htier2 (by rw [hcred2, hc1])]
      exact ⟨rfl, rfl, rfl, rfl⟩
    · intro hpos
      rcases Nat.lt_or_ge 1 r.credits with hgt | hle
      · rw [key, consume_deduct_decrement r2 hunl2 htier2 (by rw [hcred2]; exact hgt)]
        refine ⟨?_, htier2, hunl2, hexp2⟩
        show r2.credits - 1 = r.credits - 1
        rw [hcred2]
      · exfalso
        have hval : (api_use now t v r []).1.credits = 0 := by
          rcases (by omega : r.credits = 0 ∨ r.credits = 1) with h0 | h1
          · rw [key, consume_deduct_free_branch r2 hunl2
              (by rintro ⟨-, hp⟩; rw [hcred2, h0] at hp; omega)]
            show r2.credits = 0
            rw [hcred2, h0]
          · rw [key, consume_deduct_collapse r2 hunl2 htier2 (by rw [hcred2, h1])]
        omega
  · -- the expiry check fired: the record entering the deduction is free/0
    have htier2 : r2.tier = Tier.free := by rw [h2tier, h]
    have hunl2 : r2.unlimited = false := by rw [h2unl, h]
    have hcred2 : r2.credits = 0 := by rw [h2cred, h]
    have hexp2 : r2.expires = none := by rw [h2exp, h]
    have hdeduct : consume_deduct r2 = { r2 with daily_used := r2.daily_used + 1 } :=
      consume_deduct_free_branch r2 hunl2
        (by rintro ⟨hf, -⟩; rw [htier2] at hf; exact Tier.noConfusion hf)
    constructor
    · intro _
      rw [key, hdeduct]
      exact ⟨htier2, hcred2, hunl2, hexp2⟩
    · intro hpos
      exfalso
      rw [key, hdeduct] at hpos
      have hp2 : (0 : Nat) < r2.credits := hpos
      omega

/-- Witness for C2: a pro device with exactly 1 credit (valid until day 200,
consuming on day 100) collapses to the free-tier zero record. -/
theorem consume_last_credit_collapses_witness :
    (api_use ⟨100, 0⟩ "hi" "v"
        ⟨Tier.pro, 1, false, some 200, 0, some 100, none, false, none, 0⟩ []).1.tier
      = Tier.free ∧
    (api_use ⟨100, 0⟩ "hi" "v"
        ⟨Tier.pro, 1, false, some 200, 0, some 100, none, false, none, 0⟩ []).1.credits
      = 0 ∧
    (api_use ⟨100, 0⟩ "hi" "v"
        ⟨Tier.pro, 1, false, some 200, 0, some 100, none, false, none, 0⟩ []).1.unlimited
      = false ∧
    (api_use ⟨100, 0⟩ "hi" "v"
        ⟨Tier.pro, 1, false, some 200, 0, some 100, none, false, none, 0⟩ []).1.expires
      = none :=
  (consume_last_credit_collapses ⟨100, 0⟩ "hi" "v"
    ⟨Tier.pro, 1, false, some 200, 0, some 100, none, false, none, 0⟩ rfl rfl).1 rfl

/-- C10: a device stuck at tier pro with 0 credits and unlimited false
(reachable because `admin_penalty` floors credits at 0 without demoting the
tier) is refused by Validate even when `daily_used` is below the daily
limit, yet a consume call on that record falls into the free-tier deduction
branch: `daily_used` goes up by 1 while credits stay 0 and the tier stays
pro. -/
theorem pro_zero_credits_validate_consume (now : DateTime) (t v : String)
    (r : License) (htier : r.tier = Tier.pro) (hunl : r.unlimited = false)
    (hcred : r.credits = 0) (hexp : r.expires = none)
    (hday : r.daily_reset = some now.day)
    (hlim : r.daily_used < FREE_DAILY_LIMIT) :
    (api_validate now r).2 = false ∧
    (api_use now t v r []).1.daily_used = r.daily_used + 1 ∧
    (api_use now t v r []).1.credits = 0 ∧
    (api_use now t v r []).1.tier = Tier.pro := by
  have hnorm : normalize now r = r := by
    unfold normalize
    rw [check_daily_reset_self now r hday, check_expiry_none now r hexp]
  refine ⟨?_, ?_⟩
  · cases hs : r.suspended
    · simp [api_validate, hnorm, hs, hunl, htier, hcred]
    · simp [api_validate, hnorm, hs]
  · have key : (api_use now t v r []).1
        = consume_deduct { r with total_generations := r.total_generations + 1 } := by
      show consume_deduct { normalize now r with
          total_generations := (normalize now r).total_generations + 1 }
        = consume_deduct { r with total_generations := r.total_generations + 1 }
      rw [hnorm]
    rw [key, consume_deduct_free_branch
      { r with total_generations := r.total_generations + 1 }
      (show ({ r with total_generations := r.total_generations + 1 } : License).unlimited
          = false from hunl)
      (by rintro ⟨-, hp⟩
          have hp2 : (0 : Nat) < r.credits := hp
          omega)]
    exact ⟨rfl, hcred, htier⟩

/-- Witness for C10: a pro/0-credit device (daily_used 3) on day 100 is
refused by Validate and a consume bumps `daily_used` to 4 with tier still
pro and credits still 0. -/
theorem pro_zero_credits_witness :
    (api_validate ⟨100, 7⟩
        ⟨Tier.pro, 0, false, none, 3, some 100, none, false, none, 9⟩).2 = false ∧
    (api_use ⟨100, 7⟩ "x" "y"
        ⟨Tier.pro, 0, false, none, 3, some 100, none, false, none, 9⟩ []).1.daily_used
      = 3 + 1 ∧
    (api_use ⟨100, 7⟩ "x" "y"
        ⟨Tier.pro, 0, false, none, 3, some 100, none, false, none, 9⟩ []).1.credits = 0 ∧
    (api_use ⟨100, 7⟩ "x" "y"
        ⟨Tier.pro, 0, false, none, 3, some 100, none, false, none, 9⟩ []).1.tier
      = Tier.pro :=
  pro_zero_credits_validate_consume ⟨100, 7⟩ "x" "y"
    ⟨Tier.pro, 0, false, none, 3, some 100, none, false, none, 9⟩
    rfl rfl rfl rfl rfl (by decide)

/-- C3 counterexample: Activate does not apply normalization. A device whose
`expires` (day 99) is already in the past on day 100 still holds 50 stale
credits when it activates a 300-credit coupon, and ends with 350 credits —
not the coupon grant alone (300), although normalization would have zeroed
the stale balance first. -/
theorem activate_skips_normalization_cex :
    (api_activate ⟨100, 0⟩ "dev-1"
        (some ⟨"PRO30-AAAAAAAA-BBBB", "PRO30", 300, 30, false, false, none⟩)
        ⟨Tier.pro, 50, false, some 99, 0, some 100, none, false, none, 7⟩).1.credits
      = 350 ∧
    (normalize ⟨100, 0⟩
        ⟨Tier.pro, 50, false, some 99, 0, some 100, none, false, none, 7⟩).credits
      = 0 ∧
    (350 : Nat) ≠ 300 := by decide

/-- C3 as amended: GetStatus, Validate and Consume do act on the normalized
record (their outcome on a record equals their outcome on the already
normalized record), but Activate does not normalize: on a device whose
`expires` is strictly in the past — whose normalized balance is therefore
0 — it still adds the coupon grant to the stale stored balance. -/
theorem normalization_entry_points (now : DateTime) (t v devId : String)
    (log : List UsageEntry) (r : License) (c : Coupon) (d : Nat)
    (hexp : r.expires = some d) (hpast : d < now.day)
    (hsus : r.suspended = false) (hused : c.used = false) :
    api_status now r = api_status now (normalize now r) ∧
    api_validate now r = api_validate now (normalize now r) ∧
    api_use now t v r log = api_use now t v (normalize now r) log ∧
    (normalize now r).credits = 0 ∧
    (api_activate now devId (some c) r).1.credits = r.credits + c.credits := by
  have hfire : (normalize now r).credits = 0 := by
    unfold normalize
    rw [check_expiry_fire now _ d
      (by rw [check_daily_reset_expires, hexp])
      (by unfold nowPastMidnightOf; simp [hpast])]
  refine ⟨?_, ?_, ?_, hfire, ?_⟩
  · unfold api_status
    rw [normalize_idem]
  · unfold api_validate
    rw [normalize_idem]
  · unfold api_use
    rw [normalize_idem]
  · unfold api_activate
    simp [hsus, hused]

/-- Witness for C3's amended statement: the concrete expired device of the
counterexample; GetStatus output is normalization-stable while Activate
yields 50 + 300 credits on a normalized balance of 0. -/
theorem normalization_entry_points_witness :
    api_status ⟨100, 0⟩
        ⟨Tier.pro, 50, false, some 99, 0, some 100, none, false, none, 7⟩
      = api_status ⟨100, 0⟩
        (normalize ⟨100, 0⟩
          ⟨Tier.pro, 50, false, some 99, 0, some 100, none, false, none, 7⟩) ∧
    (normalize ⟨100, 0⟩
        ⟨Tier.pro, 50, false, some 99, 0, some 100, none, false, none, 7⟩).credits
      = 0 ∧
    (api_activate ⟨100, 0⟩ "dev-1"
        (some ⟨"PRO30-AAAAAAAA-BBBB", "PRO30", 300, 30, false, false, none⟩)
        ⟨Tier.pro, 50, false, some 99, 0, some 100, none, false, none, 7⟩).1.credits
      = 50 + 300 := by
  have h := normalization_entry_points ⟨100, 0⟩ "t" "v" "dev-1" []
    ⟨Tier.pro, 50, false, some 99, 0, some 100, none, false, none, 7⟩
    ⟨"PRO30-AAAAAAAA-BBBB", "PRO30", 300, 30, false, false, none⟩ 99
    rfl (by decide) rfl rfl
  exact ⟨h.1, h.2.2.2.1, h.2.2.2.2⟩

/-- C4 counterexample: Consume is not blocked for a suspended device. A
suspended free-tier device consuming once is mutated — `daily_used` goes
0 → 1, `total_generations` 3 → 4, and one usage-log entry is appended —
contradicting "blocked ... and leave the device record unchanged". -/
theorem suspended_consume_cex :
    (api_use ⟨100, 0⟩ "hello" "v1"
        ⟨Tier.free, 0, false, none, 0, some 100, none, true, some "abuse", 3⟩ []).1
      ≠ ⟨Tier.free, 0, false, none, 0, some 100, none, true, some "abuse", 3⟩ ∧
    (api_use ⟨100, 0⟩ "hello" "v1"
        ⟨Tier.free, 0, false, none, 0, some 100, none, true, some "abuse", 3⟩ []).1.daily_used
      = 1 ∧
    (api_use ⟨100, 0⟩ "hello" "v1"
        ⟨Tier.free, 0, false, none, 0, some 100, none, true, some "abuse", 3⟩ []).1.total_generations
      = 4 ∧
    (api_use ⟨100, 0⟩ "hello" "v1"
        ⟨Tier.free, 0, false, none, 0, some 100, none, true, some "abuse", 3⟩ []).2.length
      = 1 := by decide

/-- C4 as amended: for a suspended device, Activate is blocked with a
Suspended outcome, leaving the license row and the coupon row untouched;
Consume is NOT blocked — it still increments `total_generations` and appends
a usage-log entry (only the response afterwards reports the suspension) —
while GetStatus answers with the suspended payload and Validate reports
`can_generate = false`, both without blocking. -/
theorem suspension_gates (now : DateTime) (t v devId : String)
    (couponRow : Option Coupon) (r : License) (hsus : r.suspended = true) :
    api_activate now devId couponRow r = (r, couponRow, ActivateResult.errSuspended) ∧
    (api_use now t v r []).1.total_generations = r.total_generations + 1 ∧
    (api_use now t v r []).2 = [⟨textPreview t, t.length, v⟩] ∧
    (api_status now r).2 = StatusResp.suspendedResp r.suspend_reason 0 ∧
    (api_validate now r).2 = false := by
  refine ⟨?_, api_use_tg now t v r [], ?_, ?_, ?_⟩
  · unfold api_activate
    rw [if_pos hsus]
  · rw [api_use_log]
    rw [List.nil_append]
  · simp [api_status, normalize_suspended, hsus, normalize_reason]
  · simp [api_validate, normalize_suspended, hsus]

/-- Witness for C4's amended statement: the suspended device of the
counterexample, with a concrete unused coupon row. -/
theorem suspension_gates_witness :
    api_activate ⟨100, 0⟩ "dev-1"
        (some ⟨"PRO30-AAAAAAAA-BBBB", "PRO30", 300, 30, false, false, none⟩)
        ⟨Tier.free, 0, false, none, 0, some 100, none, true, some "abuse", 3⟩
      = (⟨Tier.free, 0, false, none, 0, some 100, none, true, some "abuse", 3⟩,
          some ⟨"PRO30-AAAAAAAA-BBBB", "PRO30", 300, 30, false, false, none⟩,
          ActivateResult.errSuspended) ∧
    (api_use ⟨100, 0⟩ "hello" "v1"
        ⟨Tier.free, 0, false, none, 0, some 100, none, true, some "abuse", 3⟩ []).1.total_generations
      = 3 + 1 ∧
    (api_status ⟨100, 0⟩
        ⟨Tier.free, 0, false, none, 0, some 100, none, true, some "abuse", 3⟩).2
      = StatusResp.suspendedResp (some "abuse") 0 ∧
    (api_validate ⟨100, 0⟩
        ⟨Tier.free, 0, false, none, 0, some 100, none, true, some "abuse", 3⟩).2
      = false := by
  have h := suspension_gates ⟨100, 0⟩ "hello" "v1" "dev-1"
    (some ⟨"PRO30-AAAAAAAA-BBBB", "PRO30", 300, 30, false, false, none⟩)
    ⟨Tier.free, 0, false, none, 0, some 100, none, true, some "abuse", 3⟩ rfl
  exact ⟨h.1, h.2.1, h.2.2.2.1, h.2.2.2.2⟩

/-- C7 counterexample: a device whose `expires` date equals today IS reset by
normalization (at any time strictly after midnight): on day 100 at a nonzero
time of day, a pro device with `expires = 100` is demoted although
`100 < 100` is false, refuting "demotes exactly when expires is strictly
earlier than today". -/
theorem expiry_equals_today_cex :
    ¬ (100 < 100) ∧
    (normalize ⟨100, 1⟩
        ⟨Tier.pro, 5, false, some 100, 0, some 100, none, false, none, 0⟩).tier
      = Tier.free ∧
    normalize ⟨100, 1⟩
        ⟨Tier.pro, 5, false, some 100, 0, some 100, none, false, none, 0⟩
      ≠ ⟨Tier.pro, 5, false, some 100, 0, some 100, none, false, none, 0⟩ := by decide

/-- C7 as amended: the expiry check demotes a device to the free-tier reset
record exactly when `expires` is set and `datetime.now()` is strictly past
midnight of the expires date — that is, `expires` is strictly earlier than
today, or equals today and the time of day is past midnight. A device whose
`expires` equals today is therefore reset by any access strictly after
midnight, and left untouched only at midnight exactly. -/
theorem expiry_demotes_iff (now : DateTime) (r : License) (d : Nat)
    (hexp : r.expires = some d) :
    (check_expiry now r =
        { r with tier := Tier.free, credits := 0, unlimited := false, expires := none })
      ↔ (d < now.day ∨ (d = now.day ∧ 0 < now.tod)) := by
  constructor
  · intro h
    by_contra hc
    push_neg at hc
    have hq : nowPastMidnightOf now d = false := by
      unfold nowPastMidnightOf
      rcases hc with ⟨hc1, hc2⟩
      by_cases hd : d = now.day
      · simp [hc1, hd, hc2 hd]
      · simp [hc1, hd]
    rw [check_expiry_skip now r d hexp hq] at h
    have hnone : r.expires = none := congrArg License.expires h
    rw [hexp] at hnone
    exact Option.noConfusion hnone
  · intro h
    apply check_expiry_fire now r d hexp
    unfold nowPastMidnightOf
    rcases h with h | ⟨h1, h2⟩
    · simp [h]
    · simp [h1, h2]

/-- Witness for C7's amended statement: a device expiring on day 99, accessed
at midnight of day 100, instantiates the equivalence. -/
theorem expiry_demotes_iff_witness :
    (check_expiry ⟨100, 0⟩
        ⟨Tier.pro, 5, false, some 99, 2, some 100, none, false, none, 6⟩
      = ⟨Tier.free, 0, false, none, 2, some 100, none, false, none, 6⟩)
      ↔ (99 < 100 ∨ (99 = 100 ∧ 0 < 0)) :=
  expiry_demotes_iff ⟨100, 0⟩
    ⟨Tier.pro, 5, false, some 99, 2, some 100, none, false, none, 6⟩ 99 rfl

lemma free_consume_step (now : DateTime) (t v : String) (n g : Nat) :
    (api_use now t v
        ⟨Tier.free, 0, false, none, n, some now.day, none, false, none, g⟩ []).1
      = ⟨Tier.free, 0, false, none, n + 1, some now.day, none, false, none, g + 1⟩ := by
  simp [api_use, normalize, check_daily_reset, check_expiry, consume_deduct]

lemma consumeN_free (now : DateTime) (k n g : Nat) :
    consumeN now k ⟨Tier.free, 0, false, none, n, some now.day, none, false, none, g⟩
      = ⟨Tier.free, 0, false, none, n + k, some now.day, none, false, none, g + k⟩ := by
  induction k with
  | zero => rfl
  | succ m ih =>
      show (api_use now "" ""
          (consumeN now m
            ⟨Tier.free, 0, false, none, n, some now.day, none, false, none, g⟩) []).1 = _
      rw [ih, free_consume_step]
      rfl

/-- C9: for a previously unseen device id, the first GetStatus call returns
tier free, remaining 10 and daily_used 0; after 10 Consume calls on the same
day, a subsequent Validate call returns `can_generate = false`. -/
theorem fresh_device_scenario (now : DateTime) :
    (api_status now (get_or_create_license none now)).2
      = StatusResp.ok Tier.free "Free" (Remaining.num 10) false none 0 10 false ∧
    (api_validate now (consumeN now 10 (get_or_create_license none now))).2 = false := by
  constructor
  · show (api_status now (freshLicense now.day)).2 = _
    simp [api_status, normalize, check_daily_reset, check_expiry, freshLicense,
      FREE_DAILY_LIMIT]
  · show (api_validate now (consumeN now 10 (freshLicense now.day))).2 = false
    have h10 : consumeN now 10 (freshLicense now.day)
        = ⟨Tier.free, 0, false, none, 10, some now.day, none, false, none, 10⟩ := by
      show consumeN now 10
          ⟨Tier.free, 0, false, none, 0, some now.day, none, false, none, 0⟩ = _
      rw [consumeN_free]
    rw [h10]
    simp [api_validate, normalize, check_daily_reset, check_expiry, FREE_DAILY_LIMIT]

end TTSLicense
